import Mathlib

/-!
Verification of the Fact-Check Orchestration Engine of the
mumbai_hacks_supernova repository (Project Clarion).

The visible source contains the React presentation components
(`TrendingNews.jsx`, `JournalistChat.jsx`, `App.jsx`), the setup guide and
two documents that quote backend snippets (the result cache keyed by an
md5 digest of the lowered, stripped claim, the 3-attempt exponential-backoff
retry wrapper around the Gemini call, and the two AI-degradation notices).
The backend module `backend/app.py` itself is not part of the visible
source, so the orchestration engine (adapters, retry controller, cache,
verdict composer, `factCheck` endpoint) is modelled from the specification
and those snippets; definitions taken from the specification say so in
their doc comment.  The frontend functions (`getVerdictClass`,
`handleSubmit`) are embedded directly from the JSX source.
-/

namespace Clarion

/-- Character-list version of `startsWith`: `leadMatch p l` is true when
`p` is an initial segment of `l`.  Building block for the JS
`String.prototype.includes` used by the frontend. -/
def leadMatch : List Char → List Char → Bool
  | [], _ => true
  | _ :: _, [] => false
  | p :: ps, c :: cs => p == c && leadMatch ps cs

/-- Character-list substring test: `hasSub p l` is true when `p` occurs
contiguously inside `l`. -/
def hasSub : List Char → List Char → Bool
  | p, [] => leadMatch p []
  | p, c :: cs => leadMatch p (c :: cs) || hasSub p cs

/-- Embedding of the JavaScript `s.includes(pat)` substring test. -/
def strIncludes (s pat : String) : Bool :=
  hasSub pat.data s.data

/-- Embedding of the JavaScript `s.toUpperCase()` (character-wise
uppercasing, which coincides with the JS behaviour on the ASCII verdict
labels involved). -/
def upperStr (s : String) : String :=
  String.mk (s.data.map Char.toUpper)

/-- Embedding of the Python `s.lower()` / JS `s.toLowerCase()`
(character-wise lowercasing). -/
def lowerStr (s : String) : String :=
  String.mk (s.data.map Char.toLower)

/-- Character-list trim: drop leading and trailing whitespace. -/
def trimCh (l : List Char) : List Char :=
  ((l.dropWhile Char.isWhitespace).reverse.dropWhile Char.isWhitespace).reverse

/-- Embedding of the Python `s.strip()` / JS `s.trim()`. -/
def trimStr (s : String) : String :=
  String.mk (trimCh s.data)

/-- `getVerdictClass` from `frontend/src/components/TrendingNews.jsx`
(lines 35–41): uppercase the verdict, then test substrings in a fixed
priority order; both the explicit UNCHECKED/NEEDS branch and the final
fallthrough return "unchecked". -/
def getVerdictClass (verdict : String) : String :=
  let v := upperStr verdict
  if strIncludes v "VERIFIED" || strIncludes v "TRUE" then "verified"
  else if strIncludes v "FALSE" || strIncludes v "MISLEADING" then "false"
  else if strIncludes v "UNCHECKED" || strIncludes v "NEEDS" then "unchecked"
  else "unchecked"

/-- An Article as rendered by `JournalistChat.jsx` (title, source, pubDate,
optional description, optional url) and described by the spec data model. -/
structure Article where
  title : String
  source : String
  pubDate : String
  description : Option String
  url : Option String
deriving DecidableEq

/-- The embedded fact-check-database sub-result
(`google_fact_check: {verdict, source, summary}` in the response shape). -/
structure FactCheckData where
  verdict : String
  source : String
  summary : String
deriving DecidableEq

/-- Modelled from the spec: outcome of the Fact-Check Adapter — either a
hit carrying verdict/source/summary, or `Unavailable(reason)` (which also
covers `no_match`). -/
inductive FcOutcome where
  | hit (d : FactCheckData)
  | unavailable (reason : String)
deriving DecidableEq

/-- Modelled from the spec: outcome of the News Adapter — an
ordered-by-relevance article list, or unavailable after retry exhaustion. -/
inductive NewsOutcome where
  | ok (articles : List Article)
  | unavailable
deriving DecidableEq

/-- Modelled from the spec: outcome of the AI Adapter — free-text analysis,
or one of the two distinguishable failure kinds (`RateLimited`,
`AuthError`). -/
inductive AiOutcome where
  | ok (analysis : String)
  | rateLimited
  | authError
deriving DecidableEq

/-- The fixed rate-limit degradation notice, from the repository document
"Rate Limit Issue - SOLVED" (lines 16–21). -/
def rateLimitNotice : String :=
  "⚠️ AI Analysis temporarily unavailable due to rate limits. Please try again in a few moments. Based on the articles found, please review the sources manually for now."

/-- The fixed auth-error degradation notice, from the repository document
"Rate Limit Issue - SOLVED" (lines 24–29). -/
def authErrorNotice : String :=
  "⚠️ AI Analysis unavailable - API key issue. Please check your Gemini API key. Based on the articles found, please review the sources manually."

/-- The final Verdict payload, as serialized to the caller
(`{claim, verdict, analysis, supporting_articles, articles_count,
google_fact_check?}`). -/
structure Verdict where
  claim : String
  verdict : String
  analysis : String
  supporting_articles : List Article
  articles_count : Nat
  google_fact_check : Option FactCheckData
deriving DecidableEq

/-- The deduplication key of an article: the (title, source, URL) triple. -/
def dedupKey (a : Article) : String × String × Option String :=
  (a.title, a.source, a.url)

/-- Modelled from the spec: first-occurrence deduplication on
`dedupKey`, keeping relevance order; `seen` accumulates the keys already
emitted. -/
def dedupGo (seen : List (String × String × Option String)) :
    List Article → List Article
  | [] => []
  | a :: rest =>
    if dedupKey a ∈ seen then dedupGo seen rest
    else a :: dedupGo (dedupKey a :: seen) rest

/-- Modelled from the spec: deduplicate a News Adapter result on
(title, source, URL), preserving relevance order. -/
def dedupArticles (l : List Article) : List Article :=
  dedupGo [] l

/-- Articles carried by a News Adapter outcome (an unavailable news source
contributes no evidence). -/
def newsArticles : NewsOutcome → List Article
  | .ok articles => articles
  | .unavailable => []

/-- The embedded fact-check sub-result of a Fact-Check Adapter outcome. -/
def fcEmbed : FcOutcome → Option FactCheckData
  | .hit d => some d
  | .unavailable _ => none

/-- Modelled from the spec: the composer's top-level label — a hit with a
non-UNCHECKED verdict is authoritative, everything else is ANALYZED. -/
def verdictLabel : FcOutcome → String
  | .hit d => if d.verdict = "UNCHECKED" then "ANALYZED" else d.verdict
  | .unavailable _ => "ANALYZED"

/-- Modelled from the spec: the analysis field of the composed Verdict —
the AI text on success, otherwise the fixed kind-specific notice. -/
def aiAnalysisText : AiOutcome → String
  | .ok t => t
  | .rateLimited => rateLimitNotice
  | .authError => authErrorNotice

/-- Modelled from the spec: the Verdict Composer (§4.4) — merge the three
source outcomes into one Verdict, deduplicating articles and applying the
precedence and degradation rules.  A total function: it never fails. -/
def composeVerdict (claim : String) (fc : FcOutcome) (news : NewsOutcome)
    (ai : AiOutcome) : Verdict :=
  let arts := dedupArticles (newsArticles news)
  { claim := claim
    verdict := verdictLabel fc
    analysis := aiAnalysisText ai
    supporting_articles := arts
    articles_count := arts.length
    google_fact_check := fcEmbed fc }

/-- Embedding of `claim.lower().strip()` from the backend cache snippet
quoted in the repository docs (`get_cache_key`). -/
def normalizeClaim (c : String) : String :=
  trimStr (lowerStr c)

/-- Modelled from the spec: `hashlib.md5(...).hexdigest()` is an opaque,
deterministic, fixed-width digest of its input; it is modelled here by a
deterministic 64-bit rolling digest of the character codes. -/
def claimDigest (s : String) : Nat :=
  s.data.foldl (fun h c => (h * 131 + c.toNat) % (2 ^ 64)) 5381

/-- `get_cache_key` from the backend cache snippet quoted in the
repository docs: digest of the lowered, stripped claim. -/
def get_cache_key (claim : String) : Nat :=
  claimDigest (normalizeClaim claim)

/-- A cache entry: the stored Verdict plus its creation timestamp. -/
structure CacheEntry where
  data : Verdict
  timestamp : Nat
deriving DecidableEq

/-- The result cache: newest-first association list from cache key to
entry (models the backend `fact_check_cache` dict, where the latest write
for a key is the one a lookup sees). -/
abbrev Cache := List (Nat × CacheEntry)

/-- Modelled from the backend cache snippet: return the cached Verdict if
an entry for the key exists and is younger than the 3600-unit TTL. -/
def cacheLookup (cache : Cache) (key : Nat) (now : Nat) : Option Verdict :=
  match List.find? (fun e => e.1 == key) cache with
  | some e => if now - e.2.timestamp < 3600 then some e.2.data else none
  | none => none

/-- Modelled from the backend cache snippet: store a Verdict under its key
with the current timestamp. -/
def cachePut (cache : Cache) (key : Nat) (v : Verdict) (now : Nat) : Cache :=
  (key, ⟨v, now⟩) :: cache

/-- Modelled from the spec: the three Source Adapters, as the functions
the engine calls on a cache miss.  The AI Adapter additionally receives
the News Adapter articles as grounding context. -/
structure Adapters where
  factCheckQ : String → FcOutcome
  newsQ : String → NewsOutcome
  aiQ : String → List Article → AiOutcome

/-- Modelled from the spec: `factCheck` (§4.5) — validate the claim,
normalize and fingerprint it, consult the cache, and on a miss query the
three adapters, compose, and store.  Returns the rejection-or-Verdict,
the updated cache, and the number of adapter invocations performed. -/
def factCheck (ad : Adapters) (cache : Cache) (now : Nat) (claim : String) :
    (Except String Verdict) × Cache × Nat :=
  if trimStr claim = "" then
    (.error "Please enter a claim to fact-check", cache, 0)
  else
    let key := get_cache_key claim
    match cacheLookup cache key now with
    | some v => (.ok v, cache, 0)
    | none =>
      let fc := ad.factCheckQ claim
      let news := ad.newsQ claim
      let ai := ad.aiQ claim (newsArticles news)
      let v := composeVerdict claim fc news ai
      (.ok v, cachePut cache key v now, 3)

/-- Modelled from the spec: the result of one adapter attempt as seen by
the Retry/Backoff Controller — success, a transient failure (throttling,
timeout, 5xx), or a non-retryable auth failure. -/
inductive AttemptResult where
  | success (value : String)
  | transientFailure (reason : String)
  | authFailure
deriving DecidableEq

/-- Modelled from the spec: the controller's outcome — a successful
SourceResult or `Unavailable(reason)`; exhaustion is converted into a
normal result, never raised. -/
inductive RetryOutcome where
  | ok (value : String)
  | unavailable (reason : String)
deriving DecidableEq

/-- Modelled from the spec and the `call_gemini_with_retry` snippet: run
the attempts whose indices are listed, stopping at the first success,
stopping without retry on an auth failure, and returning
`Unavailable(reason)` after the last transient failure. -/
def retryList (op : Nat → AttemptResult) : List Nat → RetryOutcome
  | [] => .unavailable "retry budget exhausted"
  | k :: ks =>
    match op k with
    | .success v => .ok v
    | .authFailure => .unavailable "auth error"
    | .transientFailure reason =>
      match ks with
      | [] => .unavailable reason
      | _ :: _ => retryList op ks

/-- Modelled from the spec: `withRetry(op, maxAttempts)` — attempts
`0, 1, ..., maxAttempts - 1` in order. -/
def withRetry (op : Nat → AttemptResult) (maxAttempts : Nat) : RetryOutcome :=
  retryList op (List.range maxAttempts)

/-- Modelled from the spec and the retry snippet (2s, 4s, 8s): the delay
taken after attempt `k` is the base doubled `k` times. -/
def retryDelay (base attempt : Nat) : Nat :=
  base * 2 ^ attempt

/-- One entry of the JournalistChat history list:
`{claim, result, timestamp}` (JournalistChat.jsx lines 50–54). -/
structure HistoryItem where
  claim : String
  result : Verdict
  timestamp : String
deriving DecidableEq

/-- The React state of `JournalistChat` (claim input text, displayed
result, error banner, history list, loading flag). -/
structure ChatState where
  claim : String
  result : Option Verdict
  error : Option String
  history : List HistoryItem
  loading : Bool
deriving DecidableEq

/-- The outcome of the `fetch` in `handleSubmit`: an ok response carrying
the Verdict payload, a non-ok response with status and optional `detail`,
or a network-level failure whose message reaches the catch block. -/
inductive FetchOutcome where
  | ok (data : Verdict)
  | httpError (status : Nat) (detail : Option String)
  | networkFailure (message : String)
deriving DecidableEq

/-- The error message computed by `handleSubmit` for a non-ok response
(JournalistChat.jsx lines 33–43): the server `detail` when present, else
a generic status message; specialized for 500-status rate-limit and
API-key messages. -/
def httpErrorMessage (status : Nat) (detail : Option String) : String :=
  let errorMessage :=
    match detail with
    | some d => d
    | none => "Server error: " ++ toString status
  if status == 500 && strIncludes errorMessage "rate limit" then
    "⚠️ Rate limit reached. Please wait a moment and try again."
  else if status == 500 && strIncludes errorMessage "API key" then
    "⚠️ API configuration issue. Please check your API keys."
  else errorMessage

/-- `handleSubmit` from `JournalistChat.jsx` (lines 13–62) as a state
transition: a blank claim only sets the error banner; a failed fetch sets
the error banner (and clears the loading flag); a successful response
stores the result, puts a new entry at the head of the history, and
clears the claim input. -/
def handleSubmit (s : ChatState) (outcome : FetchOutcome) (ts : String) :
    ChatState :=
  if trimStr s.claim = "" then
    { s with error := some "Please enter a claim to fact-check" }
  else
    match outcome with
    | .ok d =>
      { s with
          loading := false
          error := none
          result := some d
          history := ⟨trimStr s.claim, d, ts⟩ :: s.history
          claim := "" }
    | .httpError st detail =>
      { s with loading := false, error := some (httpErrorMessage st detail) }
    | .networkFailure m =>
      { s with loading := false, error := some m }

/-- Claim C10: `getVerdictClass` is total over all verdict strings and
returns one of exactly three classes, with checks applied in a fixed
priority order on the upper-cased verdict: "verified" if it contains
VERIFIED or TRUE, else "false" if it contains FALSE or MISLEADING, else
"unchecked" for every remaining string; a verdict containing both TRUE
and FALSE is classified "verified". -/
theorem getVerdictClass_total_priority (verdict : String) :
    (getVerdictClass verdict = "verified" ∨ getVerdictClass verdict = "false" ∨
      getVerdictClass verdict = "unchecked")
  ∧ ((strIncludes (upperStr verdict) "VERIFIED" ||
        strIncludes (upperStr verdict) "TRUE") = true →
      getVerdictClass verdict = "verified")
  ∧ ((strIncludes (upperStr verdict) "VERIFIED" ||
        strIncludes (upperStr verdict) "TRUE") = false →
     (strIncludes (upperStr verdict) "FALSE" ||
        strIncludes (upperStr verdict) "MISLEADING") = true →
      getVerdictClass verdict = "false")
  ∧ ((strIncludes (upperStr verdict) "VERIFIED" ||
        strIncludes (upperStr verdict) "TRUE") = false →
     (strIncludes (upperStr verdict) "FALSE" ||
        strIncludes (upperStr verdict) "MISLEADING") = false →
      getVerdictClass verdict = "unchecked") := by
  refine ⟨?_, ?_, ?_, ?_⟩ <;>
    simp only [getVerdictClass] <;> intros <;> split_ifs <;> simp_all

/-- Witness for C10: a verdict string containing both TRUE and FALSE is
classified "verified" by the first check. -/
theorem getVerdictClass_total_priority_witness :
    getVerdictClass "TRUE AND FALSE" = "verified" :=
  (getVerdictClass_total_priority "TRUE AND FALSE").2.1 (by decide)

/-- Claim C9: in `JournalistChat.handleSubmit`, for a non-blank claim, a
failed fetch (non-ok response or network failure) only sets the error
message state — history, displayed result and the claim input text are
unchanged; the claim input is cleared and the history is extended (new
entry prepended) only on a successful response. -/
theorem handleSubmit_frame (s : ChatState) (ts : String)
    (h : trimStr s.claim ≠ "") :
    (∀ st detail,
       (handleSubmit s (.httpError st detail) ts).history = s.history ∧
       (handleSubmit s (.httpError st detail) ts).result = s.result ∧
       (handleSubmit s (.httpError st detail) ts).claim = s.claim ∧
       (handleSubmit s (.httpError st detail) ts).error =
         some (httpErrorMessage st detail))
  ∧ (∀ m,
       (handleSubmit s (.networkFailure m) ts).history = s.history ∧
       (handleSubmit s (.networkFailure m) ts).result = s.result ∧
       (handleSubmit s (.networkFailure m) ts).claim = s.claim ∧
       (handleSubmit s (.networkFailure m) ts).error = some m)
  ∧ (∀ d,
       (handleSubmit s (.ok d) ts).claim = "" ∧
       (handleSubmit s (.ok d) ts).result = some d ∧
       (handleSubmit s (.ok d) ts).history =
         ⟨trimStr s.claim, d, ts⟩ :: s.history) := by
  refine ⟨?_, ?_, ?_⟩ <;> intros <;> simp [handleSubmit, h]

/-- Witness for C9: a network failure leaves the history and the claim
input of a concrete state untouched. -/
theorem handleSubmit_frame_witness :
    (handleSubmit ⟨"some claim", none, none, [], false⟩
        (.networkFailure "Failed to fetch") "10:00").history =
      ([] : List HistoryItem)
  ∧ (handleSubmit ⟨"some claim", none, none, [], false⟩
        (.networkFailure "Failed to fetch") "10:00").claim = "some claim" :=
  ⟨((handleSubmit_frame ⟨"some claim", none, none, [], false⟩ "10:00"
      (by decide)).2.1 "Failed to fetch").1,
   ((handleSubmit_frame ⟨"some claim", none, none, [], false⟩ "10:00"
      (by decide)).2.1 "Failed to fetch").2.2.1⟩

/-- Claim C5: with 3 attempts, an operation failing transiently on exactly
the first two attempts and succeeding on the third yields a successful
result; failing transiently on all three yields `Unavailable(reason)` as
a normal result; and the inter-attempt delay is exponential, starting at
the base and doubling each attempt. -/
theorem withRetry_bound (op : Nat → AttemptResult) (r0 r1 : String)
    (h0 : op 0 = .transientFailure r0) (h1 : op 1 = .transientFailure r1) :
    (∀ v, op 2 = .success v → withRetry op 3 = .ok v)
  ∧ (∀ r2, op 2 = .transientFailure r2 → withRetry op 3 = .unavailable r2)
  ∧ retryDelay 2 0 = 2
  ∧ (∀ k, retryDelay 2 (k + 1) = 2 * retryDelay 2 k) := by
  have hr : List.range 3 = [0, 1, 2] := rfl
  refine ⟨?_, ?_, rfl, ?_⟩
  · intro v h2
    simp [withRetry, hr, retryList, h0, h1, h2]
  · intro r2 h2
    simp [withRetry, hr, retryList, h0, h1, h2]
  · intro k
    simp only [retryDelay, pow_succ]
    ring

/-- Witness for C5: an operation that times out on attempts 0 and 1 and
succeeds on attempt 2 is a success under a 3-attempt budget. -/
theorem withRetry_bound_witness :
    withRetry
      (fun k => if k < 2 then .transientFailure "timeout"
                else .success "analysis ok") 3 = .ok "analysis ok" :=
  (withRetry_bound
    (fun k => if k < 2 then .transientFailure "timeout"
              else .success "analysis ok")
    "timeout" "timeout" (by decide) (by decide)).1 "analysis ok" (by decide)

/-- Claim C2: `factCheck` rejects with a caller-input error exactly when
the claim is blank after trimming — for `""` and `"   "` it rejects with
a message naming the claim field and invokes no adapter; for every
non-blank claim the result is a Verdict, never a rejection, whatever the
adapters do. -/
theorem factCheck_input_validation (ad : Adapters) (cache : Cache) (now : Nat) :
    factCheck ad cache now "" =
      (.error "Please enter a claim to fact-check", cache, 0)
  ∧ factCheck ad cache now "   " =
      (.error "Please enter a claim to fact-check", cache, 0)
  ∧ strIncludes "Please enter a claim to fact-check" "claim" = true
  ∧ (∀ claim, trimStr claim ≠ "" →
       ∃ v, (factCheck ad cache now claim).1 = .ok v) := by
  refine ⟨?_, ?_, by decide, ?_⟩
  · simp [factCheck, show trimStr "" = "" from rfl]
  · simp [factCheck, show trimStr "   " = "" from rfl]
  · intro claim hc
    cases hlk : cacheLookup cache (get_cache_key claim) now with
    | some v =>
      exact ⟨v, by simp [factCheck, hc, hlk]⟩
    | none =>
      exact ⟨composeVerdict claim (ad.factCheckQ claim) (ad.newsQ claim)
          (ad.aiQ claim (newsArticles (ad.newsQ claim))),
        by simp [factCheck, hc, hlk]⟩

/-- Witness for C2: with concrete always-degraded adapters, the empty
claim is rejected and a non-blank claim yields a Verdict. -/
theorem factCheck_input_validation_witness :
    factCheck ⟨fun _ => .unavailable "no_match", fun _ => .unavailable,
        fun _ _ => .rateLimited⟩ [] 0 "" =
      (.error "Please enter a claim to fact-check", [], 0)
  ∧ ∃ v, (factCheck ⟨fun _ => .unavailable "no_match", fun _ => .unavailable,
        fun _ _ => .rateLimited⟩ [] 0 "Coffee is good").1 = .ok v :=
  ⟨(factCheck_input_validation ⟨fun _ => .unavailable "no_match",
      fun _ => .unavailable, fun _ _ => .rateLimited⟩ [] 0).1,
   (factCheck_input_validation ⟨fun _ => .unavailable "no_match",
      fun _ => .unavailable, fun _ _ => .rateLimited⟩ [] 0).2.2.2
     "Coffee is good" (by decide)⟩

/-- Claim C3: for a non-blank claim whose fingerprint is not yet cached,
the first `factCheck` call composes and stores a Verdict (3 adapter
invocations), and a second call within the 3600-unit TTL window returns
the byte-identical cached Verdict immediately, invoking no adapter and
leaving the cache unchanged. -/
theorem factCheck_idempotent (ad : Adapters) (cache : Cache) (now now2 : Nat)
    (claim : String) (hblank : trimStr claim ≠ "")
    (hmiss : cacheLookup cache (get_cache_key claim) now = none)
    (hwin : now2 - now < 3600) :
    ∃ v c1,
      factCheck ad cache now claim = (.ok v, c1, 3) ∧
      factCheck ad c1 now2 claim = (.ok v, c1, 0) := by
  refine ⟨composeVerdict claim (ad.factCheckQ claim) (ad.newsQ claim)
      (ad.aiQ claim (newsArticles (ad.newsQ claim))),
    cachePut cache (get_cache_key claim)
      (composeVerdict claim (ad.factCheckQ claim) (ad.newsQ claim)
        (ad.aiQ claim (newsArticles (ad.newsQ claim)))) now, ?_, ?_⟩
  · simp [factCheck, hblank, hmiss]
  · have hlk : cacheLookup
        (cachePut cache (get_cache_key claim)
          (composeVerdict claim (ad.factCheckQ claim) (ad.newsQ claim)
            (ad.aiQ claim (newsArticles (ad.newsQ claim)))) now)
        (get_cache_key claim) now2 =
        some (composeVerdict claim (ad.factCheckQ claim) (ad.newsQ claim)
          (ad.aiQ claim (newsArticles (ad.newsQ claim)))) := by
      simp [cacheLookup, cachePut, List.find?, hwin]
    simp [factCheck, hblank, hlk]

/-- Witness for C3: a concrete claim fact-checked twice at times 0 and 10
through concrete adapters gives the same Verdict and no adapter call the
second time. -/
theorem factCheck_idempotent_witness :
    ∃ v c1,
      factCheck ⟨fun _ => .unavailable "no_match", fun _ => .unavailable,
          fun _ _ => .rateLimited⟩ [] 0 "Coffee is good" = (.ok v, c1, 3) ∧
      factCheck ⟨fun _ => .unavailable "no_match", fun _ => .unavailable,
          fun _ _ => .rateLimited⟩ c1 10 "Coffee is good" = (.ok v, c1, 0) :=
  factCheck_idempotent ⟨fun _ => .unavailable "no_match",
    fun _ => .unavailable, fun _ _ => .rateLimited⟩ [] 0 10
    "Coffee is good" (by decide) rfl (by decide)

/-- Claim C4: two claims whose normalized (lowered, stripped) forms are
identical are mapped by the fingerprint function to the same cache key
and therefore to the same cache entry. -/
theorem fingerprint_equivalence (c1 c2 : String)
    (h : normalizeClaim c1 = normalizeClaim c2) :
    get_cache_key c1 = get_cache_key c2
  ∧ (∀ cache now, cacheLookup cache (get_cache_key c1) now =
       cacheLookup cache (get_cache_key c2) now) := by
  have hk : get_cache_key c1 = get_cache_key c2 := by
    unfold get_cache_key
    rw [h]
  exact ⟨hk, fun cache now => by rw [hk]⟩

/-- Witness for C4: `"Coffee Is Good  "` and `"coffee is good"` share one
cache key. -/
theorem fingerprint_equivalence_witness :
    get_cache_key "Coffee Is Good  " = get_cache_key "coffee is good" :=
  (fingerprint_equivalence "Coffee Is Good  " "coffee is good" (by decide)).1

/-- Claim C1: for a non-blank, uncached claim, if the AI Adapter degrades
with RateLimited or AuthError, `factCheck` still returns a Verdict whose
analysis field is the fixed, kind-specific notice (distinct wording per
kind; the rate-limit notice invites retry, the auth notice invites
credential verification), while articles and fact-check data from the
other sources are still present. -/
theorem factCheck_ai_degradation (ad : Adapters) (cache : Cache) (now : Nat)
    (claim : String) (k : AiOutcome)
    (hblank : trimStr claim ≠ "")
    (hmiss : cacheLookup cache (get_cache_key claim) now = none)
    (hk : k = .rateLimited ∨ k = .authError)
    (hai : ad.aiQ claim (newsArticles (ad.newsQ claim)) = k) :
    ∃ v c1,
      factCheck ad cache now claim = (.ok v, c1, 3)
      ∧ v.analysis = aiAnalysisText k
      ∧ (k = .rateLimited → v.analysis = rateLimitNotice)
      ∧ (k = .authError → v.analysis = authErrorNotice)
      ∧ rateLimitNotice ≠ authErrorNotice
      ∧ strIncludes rateLimitNotice "try again" = true
      ∧ strIncludes authErrorNotice "check your Gemini API key" = true
      ∧ v.supporting_articles = dedupArticles (newsArticles (ad.newsQ claim))
      ∧ v.google_fact_check = fcEmbed (ad.factCheckQ claim) := by
  refine ⟨composeVerdict claim (ad.factCheckQ claim) (ad.newsQ claim) k,
    cachePut cache (get_cache_key claim)
      (composeVerdict claim (ad.factCheckQ claim) (ad.newsQ claim) k) now,
    ?_, rfl, ?_, ?_, by decide, by decide, by decide, rfl, rfl⟩
  · simp [factCheck, hblank, hmiss, hai]
  · rintro rfl
    rfl
  · rintro rfl
    rfl

/-- Witness for C1: a concrete non-blank claim with an always-rate-limited
AI adapter still yields a Verdict. -/
theorem factCheck_ai_degradation_witness :
    ∃ v c1,
      factCheck ⟨fun _ => .unavailable "no_match", fun _ => .unavailable,
          fun _ _ => .rateLimited⟩ [] 0 "Coffee is good" = (.ok v, c1, 3)
      ∧ v.analysis = aiAnalysisText .rateLimited
      ∧ (AiOutcome.rateLimited = .rateLimited → v.analysis = rateLimitNotice)
      ∧ (AiOutcome.rateLimited = .authError → v.analysis = authErrorNotice)
      ∧ rateLimitNotice ≠ authErrorNotice
      ∧ strIncludes rateLimitNotice "try again" = true
      ∧ strIncludes authErrorNotice "check your Gemini API key" = true
      ∧ v.supporting_articles = dedupArticles (newsArticles
          ((⟨fun _ => .unavailable "no_match", fun _ => .unavailable,
            fun _ _ => .rateLimited⟩ : Adapters).newsQ "Coffee is good"))
      ∧ v.google_fact_check = fcEmbed
          ((⟨fun _ => .unavailable "no_match", fun _ => .unavailable,
            fun _ _ => .rateLimited⟩ : Adapters).factCheckQ "Coffee is good") :=
  factCheck_ai_degradation ⟨fun _ => .unavailable "no_match",
    fun _ => .unavailable, fun _ _ => .rateLimited⟩ [] 0
    "Coffee is good" .rateLimited (by decide) rfl (Or.inl rfl) rfl

/-- Claim C6: a Fact-Check Adapter hit with a non-UNCHECKED verdict is
authoritative — its label becomes the Verdict's top-level label and the
hit is embedded as the `google_fact_check` sub-result; with no such hit
(UNCHECKED hit or no hit), the top-level label is ANALYZED. -/
theorem composer_precedence (claim : String) (d : FactCheckData)
    (news : NewsOutcome) (ai : AiOutcome) :
    (d.verdict ≠ "UNCHECKED" →
       (composeVerdict claim (.hit d) news ai).verdict = d.verdict ∧
       (composeVerdict claim (.hit d) news ai).google_fact_check = some d)
  ∧ (d.verdict = "UNCHECKED" →
       (composeVerdict claim (.hit d) news ai).verdict = "ANALYZED")
  ∧ (∀ r, (composeVerdict claim (.unavailable r) news ai).verdict = "ANALYZED"
        ∧ (composeVerdict claim (.unavailable r) news ai).google_fact_check
            = none) := by
  refine ⟨fun h => ⟨?_, rfl⟩, fun h => ?_, fun r => ⟨rfl, rfl⟩⟩
  · show verdictLabel (.hit d) = d.verdict
    simp [verdictLabel, h]
  · show verdictLabel (.hit d) = "ANALYZED"
    simp [verdictLabel, h]

/-- Witness for C6: the end-to-end scenario — a FALSE hit sourced from
PolitiFact yields verdict "FALSE" with the hit embedded. -/
theorem composer_precedence_witness :
    (composeVerdict "Vaccines cause autism"
        (.hit ⟨"FALSE", "PolitiFact", "Debunked repeatedly"⟩)
        (.ok [⟨"A", "S1", "2024", none, none⟩, ⟨"B", "S2", "2024", none, none⟩,
              ⟨"C", "S3", "2024", none, none⟩])
        (.ok "The claim is false")).verdict = "FALSE"
  ∧ (composeVerdict "Vaccines cause autism"
        (.hit ⟨"FALSE", "PolitiFact", "Debunked repeatedly"⟩)
        (.ok [⟨"A", "S1", "2024", none, none⟩, ⟨"B", "S2", "2024", none, none⟩,
              ⟨"C", "S3", "2024", none, none⟩])
        (.ok "The claim is false")).google_fact_check =
      some ⟨"FALSE", "PolitiFact", "Debunked repeatedly"⟩ :=
  (composer_precedence "Vaccines cause autism"
    ⟨"FALSE", "PolitiFact", "Debunked repeatedly"⟩
    (.ok [⟨"A", "S1", "2024", none, none⟩, ⟨"B", "S2", "2024", none, none⟩,
          ⟨"C", "S3", "2024", none, none⟩])
    (.ok "The claim is false")).1 (by decide)

/-- Claim C8: when all three sources are Unavailable, the composer still
constructs a Verdict (it is a total function and cannot raise) with label
ANALYZED and empty evidence fields. -/
theorem composer_all_unavailable (claim r : String) (ai : AiOutcome)
    (_h : ai = .rateLimited ∨ ai = .authError) :
    (composeVerdict claim (.unavailable r) .unavailable ai).verdict = "ANALYZED"
  ∧ (composeVerdict claim (.unavailable r) .unavailable ai).supporting_articles
      = []
  ∧ (composeVerdict claim (.unavailable r) .unavailable ai).articles_count = 0
  ∧ (composeVerdict claim (.unavailable r) .unavailable ai).google_fact_check
      = none :=
  ⟨rfl, rfl, rfl, rfl⟩

/-- Witness for C8: all three sources down on a concrete claim still give
an ANALYZED Verdict with empty evidence. -/
theorem composer_all_unavailable_witness :
    (composeVerdict "Coffee is good" (.unavailable "timeout") .unavailable
        .rateLimited).verdict = "ANALYZED"
  ∧ (composeVerdict "Coffee is good" (.unavailable "timeout") .unavailable
        .rateLimited).supporting_articles = []
  ∧ (composeVerdict "Coffee is good" (.unavailable "timeout") .unavailable
        .rateLimited).articles_count = 0
  ∧ (composeVerdict "Coffee is good" (.unavailable "timeout") .unavailable
        .rateLimited).google_fact_check = none :=
  composer_all_unavailable "Coffee is good" "timeout" .rateLimited (Or.inl rfl)

/-- Deduplication keeps a subsequence of the input: relevance order is
preserved and nothing new is introduced. -/
theorem dedupGo_sublist (l : List Article)
    (seen : List (String × String × Option String)) :
    List.Sublist (dedupGo seen l) l := by
  induction l generalizing seen with
  | nil => simp [dedupGo]
  | cons a rest ih =>
    by_cases h : dedupKey a ∈ seen
    · simp only [dedupGo]
      rw [if_pos h]
      exact (ih seen).cons a
    · simp only [dedupGo]
      rw [if_neg h]
      exact (ih (dedupKey a :: seen)).cons₂ a

/-- No article emitted by `dedupGo` has a key that was already seen. -/
theorem dedupGo_key_not_seen (l : List Article)
    (seen : List (String × String × Option String)) :
    ∀ b ∈ dedupGo seen l, dedupKey b ∉ seen := by
  induction l generalizing seen with
  | nil => simp [dedupGo]
  | cons a rest ih =>
    intro b hb
    simp only [dedupGo] at hb
    by_cases h : dedupKey a ∈ seen
    · rw [if_pos h] at hb
      exact ih seen b hb
    · rw [if_neg h] at hb
      rcases List.mem_cons.mp hb with rfl | hb2
      · exact h
      · intro hin
        exact ih (dedupKey a :: seen) b hb2 (List.mem_cons_of_mem _ hin)

/-- The keys of the deduplicated list are pairwise distinct. -/
theorem dedupGo_keys_nodup (l : List Article)
    (seen : List (String × String × Option String)) :
    ((dedupGo seen l).map dedupKey).Nodup := by
  induction l generalizing seen with
  | nil => simp [dedupGo]
  | cons a rest ih =>
    by_cases h : dedupKey a ∈ seen
    · simp only [dedupGo]
      rw [if_pos h]
      exact ih seen
    · simp only [dedupGo]
      rw [if_neg h]
      simp only [List.map_cons, List.nodup_cons]
      refine ⟨?_, ih (dedupKey a :: seen)⟩
      intro hmem
      obtain ⟨b, hb, hkey⟩ := List.mem_map.mp hmem
      exact dedupGo_key_not_seen rest (dedupKey a :: seen) b hb
        (hkey ▸ List.mem_cons_self _ _)

/-- Every key of the input survives deduplication (unless already seen). -/
theorem dedupGo_covers (l : List Article)
    (seen : List (String × String × Option String)) :
    ∀ a ∈ l, dedupKey a ∈ seen ∨
      ∃ b ∈ dedupGo seen l, dedupKey b = dedupKey a := by
  induction l generalizing seen with
  | nil => simp
  | cons x rest ih =>
    intro a ha
    rcases List.mem_cons.mp ha with rfl | ha2
    · by_cases h : dedupKey a ∈ seen
      · exact Or.inl h
      · refine Or.inr ⟨a, ?_, rfl⟩
        simp only [dedupGo]
        rw [if_neg h]
        exact List.mem_cons_self _ _
    · by_cases h : dedupKey x ∈ seen
      · rcases ih seen a ha2 with hs | ⟨b, hb, hk⟩
        · exact Or.inl hs
        · refine Or.inr ⟨b, ?_, hk⟩
          simp only [dedupGo]
          rw [if_pos h]
          exact hb
      · rcases ih (dedupKey x :: seen) a ha2 with hs | ⟨b, hb, hk⟩
        · rcases List.mem_cons.mp hs with he | hs2
          · refine Or.inr ⟨x, ?_, he.symm⟩
            simp only [dedupGo]
            rw [if_neg h]
            exact List.mem_cons_self _ _
          · exact Or.inl hs2
        · refine Or.inr ⟨b, ?_, hk⟩
          simp only [dedupGo]
          rw [if_neg h]
          exact List.mem_cons_of_mem _ hb

/-- Two articles identical on (title, source, URL) collapse to the first. -/
theorem dedupArticles_pair (a b : Article) (h : dedupKey a = dedupKey b) :
    dedupArticles [a, b] = [a] := by
  simp [dedupArticles, dedupGo, h]

/-- Claim C7: the composer deduplicates the News Adapter articles on the
(title, source, URL) triple, preserving relevance order, and records the
deduplicated count as `articles_count`; two articles identical on the
triple but with different descriptions collapse to exactly one. -/
theorem composer_dedup (claim : String) (fc : FcOutcome) (arts : List Article)
    (ai : AiOutcome) :
    (composeVerdict claim fc (.ok arts) ai).supporting_articles
      = dedupArticles arts
  ∧ (composeVerdict claim fc (.ok arts) ai).articles_count
      = (dedupArticles arts).length
  ∧ List.Sublist (dedupArticles arts) arts
  ∧ ((dedupArticles arts).map dedupKey).Nodup
  ∧ (∀ a ∈ arts, ∃ b ∈ dedupArticles arts, dedupKey b = dedupKey a)
  ∧ (∀ a b, dedupKey a = dedupKey b →
       (composeVerdict claim fc (.ok [a, b]) ai).supporting_articles = [a]
       ∧ (composeVerdict claim fc (.ok [a, b]) ai).articles_count = 1) := by
  refine ⟨rfl, rfl, dedupGo_sublist arts [], dedupGo_keys_nodup arts [],
    fun a ha => ?_, fun a b h => ?_⟩
  · rcases dedupGo_covers arts [] a ha with hs | hb
    · simp at hs
    · exact hb
  · constructor
    · show dedupArticles [a, b] = [a]
      exact dedupArticles_pair a b h
    · show (dedupArticles [a, b]).length = 1
      rw [dedupArticles_pair a b h]
      rfl

/-- Witness for C7: two concrete articles sharing (title, source, URL)
but differing in description collapse to one with count 1. -/
theorem composer_dedup_witness :
    (composeVerdict "Coffee is good" (.unavailable "no_match")
        (.ok [⟨"T", "S", "2024", some "first description", some "u"⟩,
              ⟨"T", "S", "2024", some "second description", some "u"⟩])
        (.ok "analysis")).supporting_articles =
      [⟨"T", "S", "2024", some "first description", some "u"⟩]
  ∧ (composeVerdict "Coffee is good" (.unavailable "no_match")
        (.ok [⟨"T", "S", "2024", some "first description", some "u"⟩,
              ⟨"T", "S", "2024", some "second description", some "u"⟩])
        (.ok "analysis")).articles_count = 1 :=
  (composer_dedup "Coffee is good" (.unavailable "no_match")
    [⟨"T", "S", "2024", some "first description", some "u"⟩,
     ⟨"T", "S", "2024", some "second description", some "u"⟩]
    (.ok "analysis")).2.2.2.2.2
    ⟨"T", "S", "2024", some "first description", some "u"⟩
    ⟨"T", "S", "2024", some "second description", some "u"⟩ (by decide)

end Clarion
